import Mathlib

/-! Shallow embedding of the zmon-cli client request layer
(`zmon_cli/client.py`): URL and endpoint construction, session
authentication configuration, the JSON codec, the per-resource validators
and the resource operations that the specification talks about.

HTTP traffic is modelled by an explicit `backend : Request → Response`
function, and every operation returns, next to its result, the list of
requests it issued; "raises before any network call" is then the statement
that this list is empty.  Python dict payloads are modelled as association
lists with distinct keys whose values are scalar `JValue`s (JSON scalars,
`datetime` objects, and one opaque value that `json.dumps` cannot
serialize).  External library behaviour that the source calls into
(`urllib.parse`, `ast.parse`, `requests`' status handling, `json`) is
modelled explicitly next to th e definitions that use it. -/

/-- Scalar Python values appearing in payload mappings: JSON scalars,
`datetime` values (serialized by `JSONDateEncoder` via `isoformat`), and an
opaque object that `json.dumps` cannot serialize (e.g. a `set`). -/
inductive JValue where
  | str (s : String)
  | num (n : Int)
  | jbool (b : Bool)
  | null
  | date (iso : String)
  | unser
  deriving DecidableEq

/-- JSON values as they come back from `json.loads(json.dumps(...))` for
the scalar payloads above: a `datetime` has become its ISO string. -/
inductive SValue where
  | str (s : String)
  | num (n : Int)
  | sbool (b : Bool)
  | null
  deriving DecidableEq

/-- Python `key in mapping`. -/
def hasKey (m : List (String × α)) (key : String) : Bool :=
  m.any (fun p => p.1 == key)

/-- Python `mapping[key]` / `mapping.get(key)`. -/
def lookupKey : List (String × α) → String → Option α
  | [], _ => none
  | (k, v) :: t, key => if k == key then some v else lookupKey t key

/-- Round trip `json.loads(json.dumps(v, cls=JSONDateEncoder))` of one
scalar value: `JSONDateEncoder.default` turns a `datetime` into its
`isoformat` string, and anything else unserializable raises (modelled as
`none`). -/
def roundTripVal : JValue → Option SValue
  | JValue.str s => some (SValue.str s)
  | JValue.num n => some (SValue.num n)
  | JValue.jbool b => some (SValue.sbool b)
  | JValue.null => some SValue.null
  | JValue.date iso => some (SValue.str iso)
  | JValue.unser => none

/-- Round trip `json.loads(json.dumps(m, cls=JSONDateEncoder))` of a whole
mapping; fails as soon as one value is unserializable. -/
def roundTripObj : List (String × JValue) → Option (List (String × SValue))
  | [] => some []
  | (k, v) :: t =>
    match roundTripVal v, roundTripObj t with
    | some w, some t2 => some ((k, w) :: t2)
    | _, _ => none

/-- The `e.copy(); copy.pop('last_modified', None)` step of
`compare_entities`. -/
def popLastModified (m : List (String × JValue)) : List (String × JValue) :=
  m.filter (fun p => p.1 != "last_modified")

/-- Lexicographic code-point order on strings, as Python orders `str`. -/
def charListLe : List Char → List Char → Bool
  | [], _ => true
  | _ :: _, [] => false
  | a :: as, b :: bs =>
    if a < b then true
    else if b < a then false
    else charListLe as bs

def strLe (a b : String) : Bool := charListLe a.data b.data

def insertByKey (p : String × SValue) :
    List (String × SValue) → List (String × SValue)
  | [] => [p]
  | q :: t => if strLe p.1 q.1 then p :: q :: t else q :: insertByKey p t

/-- Key-sorted normal form of a decoded JSON object.  Python `dict`
equality is order-insensitive, so two decoded dicts (whose keys are unique)
are `==` exactly when their key-sorted forms coincide. -/
def sortByKey : List (String × SValue) → List (String × SValue)
  | [] => []
  | p :: t => insertByKey p (sortByKey t)

/-- `compare_entities(e1, e2)` from `zmon_cli/client.py`: pop
`last_modified` from copies of both mappings, JSON round-trip both and
compare; any serialization failure is caught and turned into `False`. -/
def compare_entities (e1 e2 : List (String × JValue)) : Bool :=
  match roundTripObj (popLastModified e1), roundTripObj (popLastModified e2) with
  | some o1, some o2 => decide (sortByKey o1 = sortByKey o2)
  | _, _ => false

/-- Characters allowed by the character class of `invalid_entity_id_re`,
which is `[^a-zA-Z0-9-@_.\[\]\:]+`: the complement of this set. -/
def allowedChar (c : Char) : Bool :=
  ('a' ≤ c && c ≤ 'z') || ('A' ≤ c && c ≤ 'Z') || ('0' ≤ c && c ≤ '9')
    || c == '-' || c == '@' || c == '_' || c == '.'
    || c == '[' || c == ']' || c == ':'

/-- A character matched by `invalid_entity_id_re`. -/
def invalidChar (c : Char) : Bool := !allowedChar c

/-- Replacement key for `parentheses_re = [(]+|[)]+` together with the
substitution lambda of `get_valid_entity_id`: a run of `(` is replaced by
one `[`, a run of `)` by one `]`. -/
def parenKey (c : Char) : Option Char :=
  if c == '(' then some '[' else if c == ')' then some ']' else none

/-- Replacement key for `invalid_entity_id_re.sub('-', ...)`: a run of
disallowed characters is replaced by one `-`. -/
def invalidKey (c : Char) : Option Char :=
  if invalidChar c then some '-' else none

/-- One pass of `re.sub` for a pattern matching maximal runs of
characters that share the same replacement (`[(]+|[)]+`, or a single
character class with `+`): `prev` is the replacement key of the previous
character, used to recognize that a character continues the current run. -/
def runSubAux (key : Char → Option Char) : Option Char → List Char → List Char
  | _, [] => []
  | prev, c :: rest =>
    match key c with
    | none => c :: runSubAux key none rest
    | some r =>
      if prev = some r then runSubAux key (some r) rest
      else r :: runSubAux key (some r) rest

def runSub (key : Char → Option Char) (l : List Char) : List Char :=
  runSubAux key none l

/-- Python `str.lower`, modelled per character (the inputs of interest are
ASCII). -/
def pyLower (s : String) : String := String.mk (s.data.map Char.toLower)

/-- `get_valid_entity_id(e)` from `zmon_cli/client.py`:
`invalid_entity_id_re.sub('-', parentheses_re.sub(lambda m: '[' if '(' in
m.group() else ']', e.lower()))`. -/
def get_valid_entity_id (e : String) : String :=
  String.mk (runSub invalidKey (runSub parenKey (pyLower e).data))

/-- `Zmon.is_valid_entity_id`: `invalid_entity_id_re.search(entity_id) is
None`, i.e. no character of the ID is outside the allowed set. -/
def Zmon.is_valid_entity_id (entity_id : String) : Bool :=
  entity_id.data.all (fun c => !invalidChar c)

def API_VERSION : String := "v1"

def ALERT_DEF : String := "alert-definitions"

def CHECK_DEF : String := "check-definitions"

def ENTITIES : String := "entities"

def GROUPS : String := "groups"

def MEMBER : String := "member"

def SEARCH : String := "quick-search"

/-- Python `'sep'.join(parts)`. -/
def pyJoin (sep : String) : List String → String
  | [] => ""
  | [x] => x
  | x :: xs => x ++ sep ++ pyJoin sep xs

/-- Python `str.strip('/')`: remove `/` characters from both ends. -/
def pyStripSlash (s : String) : String :=
  String.mk (((s.data.dropWhile (fun c => c == '/')).reverse.dropWhile
    (fun c => c == '/')).reverse)

/-- `Zmon._join_path(parts)`: `'/'.join(str(p).strip('/') for p in
parts)` (segments are already strings here; numeric IDs are stringified at
the call sites). -/
def join_path (parts : List String) : String :=
  pyJoin "/" (parts.map pyStripSlash)

/-- Split a list of characters at the first occurrence of `://`. -/
def breakScheme : List Char → Option (List Char × List Char)
  | [] => none
  | ':' :: '/' :: '/' :: rest => some ([], rest)
  | c :: rest =>
    match breakScheme rest with
    | some (a, b) => some (c :: a, b)
    | none => none

structure SplitUrl where
  scheme : String
  netloc : String
  path : String
  deriving DecidableEq

/-- Modelled from `urllib.parse.urlsplit`, restricted to the inputs the
client uses: absolute URLs of the form `scheme://netloc[/path...]` without
query or fragment. -/
def urlsplitM (s : String) : SplitUrl :=
  match breakScheme s.data with
  | some (sch, rest) =>
    ⟨String.mk sch, String.mk (rest.takeWhile (fun c => c != '/')),
      String.mk (rest.dropWhile (fun c => c != '/'))⟩
  | none => ⟨"", "", s⟩

/-- The directory of a URL path: everything up to and including the last
`/`; an empty path merges as the root `/` (RFC 3986 merge rule for a base
with an authority and an empty path). -/
def dirOf (path : String) : String :=
  let r := path.data.reverse.dropWhile (fun c => c != '/')
  if r.isEmpty then "/" else String.mk r.reverse

/-- Modelled from `urllib.parse.urljoin`, restricted to the references the
client builds: the base is an absolute `scheme://netloc[/path]` URL and the
reference is a plain path (no scheme, authority, query, fragment or dot
segments), resolved relative to the base's directory, or from the root
when it starts with `/`. -/
def urljoinM (base rel : String) : String :=
  if rel = "" then base
  else
    let b := urlsplitM base
    match rel.data with
    | '/' :: _ => b.scheme ++ "://" ++ b.netloc ++ rel
    | _ => b.scheme ++ "://" ++ b.netloc ++ dirOf b.path ++ rel

/-- The `username and password and token is None` branch of
`Zmon.__init__`: HTTP basic auth is configured only when both credential
strings are truthy and no token argument was passed at all. -/
def mkAuth (token username password : Option String) :
    Option (String × String) :=
  match username, password with
  | some u, some p =>
    if u ≠ "" ∧ p ≠ "" ∧ token = none then some (u, p) else none
  | _, _ => none

/-- The `if token:` branch of `Zmon.__init__`: the Authorization header is
set only for a truthy token. -/
def mkBearer : Option String → Option String
  | some t => if t ≠ "" then some ("Bearer " ++ t) else none
  | none => none

/-- The client state fixed by `Zmon.__init__`: base URL, API URL, and the
session's authentication configuration. -/
structure Zmon where
  base_url : String
  url : String
  basicAuth : Option (String × String)
  bearerHeader : Option String
  timeout : Nat
  verify : Bool
  deriving DecidableEq

/-- `Zmon.__init__(url, token, username, password, timeout, verify)`:
`base_url` is the split URL with path, query and fragment dropped, `url`
is `urljoin(base_url, 'api/v1/')`, and the session auth is configured per
`mkAuth`/`mkBearer`. -/
def Zmon.init (url : String) (token username password : Option String)
    (timeout : Nat) (verify : Bool) : Zmon :=
  let split := urlsplitM url
  let base := split.scheme ++ "://" ++ split.netloc
  { base_url := base
    url := urljoinM base (join_path ["api", API_VERSION, ""])
    basicAuth := mkAuth token username password
    bearerHeader := mkBearer token
    timeout := timeout
    verify := verify }

/-- `Zmon.endpoint(*args, trailing_slash=..., base_url=...)`. -/
def Zmon.endpoint (z : Zmon) (args : List String) (trailing_slash : Bool)
    (base_url : Option String) : String :=
  let parts := if trailing_slash then args ++ [""] else args
  let u :=
    match base_url with
    | some b => if b ≠ "" then b else z.url
    | none => z.url
  urljoinM u (join_path parts)

/-- One HTTP request as issued through the session: method, URL, query
parameters and the JSON payload mapping (the byte-level encoding of the
payload is not modelled; the payload value is). -/
structure Request where
  method : String
  url : String
  params : List (String × String)
  body : Option (List (String × JValue))
  deriving DecidableEq

structure Response where
  status : Nat
  text : String
  deriving DecidableEq

/-- The error taxonomy of the client layer: `ZmonArgumentError`,
`ZmonError` (check-command validation), `requests.HTTPError` carrying
status and body, a JSON decode failure, and a plain Python exception
(`KeyError`/`TypeError`) for paths the source does not guard. -/
inductive ZErr where
  | argumentError (msg : String)
  | clientError (msg : String)
  | httpError (status : Nat) (body : String)
  | decodeError (body : String)
  | pyError (msg : String)
  deriving DecidableEq

def ZErr.isArgumentError : ZErr → Bool
  | ZErr.argumentError _ => true
  | _ => false

def isArgumentErrorResult : Except ZErr α → Bool
  | Except.error e => e.isArgumentError
  | Except.ok _ => false

/-- `requests.Response.raise_for_status()`: raises `HTTPError` exactly for
status codes in `[400, 600)`. -/
def raise_for_status (resp : Response) : Except ZErr Unit :=
  if 400 ≤ resp.status ∧ resp.status < 600 then
    Except.error (ZErr.httpError resp.status resp.text)
  else Except.ok ()

/-- `Zmon.json(resp)`: `resp.raise_for_status()` then `resp.json()`.  The
JSON text decoder `resp.json()` is external to the repository and is a
parameter `parse`; a parse failure is the decode error. -/
def Zmon.json (parse : String → Option JValue) (resp : Response) :
    Except ZErr JValue :=
  match raise_for_status resp with
  | Except.error e => Except.error e
  | Except.ok _ =>
    match parse resp.text with
    | some v => Except.ok v
    | none => Except.error (ZErr.decodeError resp.text)

/-- `Zmon.validate_check_command(src)`: `ast.parse(src)` wrapped into a
`ZmonError` naming the parse failure.  `ast.parse` is external to the
repository and is a parameter `astParse`. -/
def Zmon.validate_check_command (astParse : String → Except String Unit)
    (src : String) : Except ZErr Unit :=
  match astParse src with
  | Except.error e => Except.error (ZErr.clientError ("Invalid check command: " ++ e))
  | Except.ok _ => Except.ok ()

/-- If `status` is absent, insert `'ACTIVE'` (the shared `if 'status' not
in d: d['status'] = 'ACTIVE'` mutation of the check/alert operations);
Python dict insertion appends the new key at the end. -/
def withDefaultStatus (m : List (String × JValue)) : List (String × JValue) :=
  if hasKey m "status" then m else m ++ [("status", JValue.str "ACTIVE")]

/-- The GET request of `Zmon.get_check_definition`. -/
def gcdReq (z : Zmon) (definition_id : String) : Request :=
  ⟨"GET", z.endpoint [CHECK_DEF, definition_id] true none, [], none⟩

/-- `Zmon.get_check_definition(definition_id)`: GET, then the backend
quirk workaround — an empty body forces `status_code = 404` before
`self.json(resp)`. -/
def Zmon.get_check_definition (z : Zmon) (parse : String → Option JValue)
    (backend : Request → Response) (definition_id : String) :
    Except ZErr JValue × List Request :=
  let req := gcdReq z definition_id
  let resp := backend req
  let resp2 := if resp.text = "" then { resp with status := 404 } else resp
  (Zmon.json parse resp2, [req])

/-- `Zmon.update_check_definition(check_definition)`: requires
`owning_team`, defaults `status` to `ACTIVE` in the argument mapping,
validates `check_definition['command']`, then POSTs.  The third component
of the result is the final state of the caller-supplied mapping (the
source mutates it in place). -/
def Zmon.update_check_definition (z : Zmon) (parse : String → Option JValue)
    (astParse : String → Except String Unit) (backend : Request → Response)
    (check_definition : List (String × JValue)) :
    Except ZErr JValue × List Request × List (String × JValue) :=
  if hasKey check_definition "owning_team" then
    let cd := withDefaultStatus check_definition
    match lookupKey cd "command" with
    | some (JValue.str src) =>
      match Zmon.validate_check_command astParse src with
      | Except.error e => (Except.error e, [], cd)
      | Except.ok _ =>
        let req : Request := ⟨"POST", z.endpoint [CHECK_DEF] true none, [], some cd⟩
        (Zmon.json parse (backend req), [req], cd)
    | some _ => (Except.error (ZErr.pyError "TypeError: command is not a string"), [], cd)
    | none => (Except.error (ZErr.pyError "KeyError: command"), [], cd)
  else
    (Except.error (ZErr.argumentError "Check definition must have \"owning_team\""), [],
      check_definition)

/-- `Zmon.create_alert_definition(alert_definition)`: requires
`last_modified_by`, defaults `status` in the argument mapping, then
requires `check_definition_id`, then POSTs.  The third component is the
final state of the caller-supplied mapping. -/
def Zmon.create_alert_definition (z : Zmon) (parse : String → Option JValue)
    (backend : Request → Response) (alert_definition : List (String × JValue)) :
    Except ZErr JValue × List Request × List (String × JValue) :=
  if hasKey alert_definition "last_modified_by" then
    let ad := withDefaultStatus alert_definition
    if hasKey ad "check_definition_id" then
      let req : Request := ⟨"POST", z.endpoint [ALERT_DEF] true none, [], some ad⟩
      (Zmon.json parse (backend req), [req], ad)
    else
      (Except.error (ZErr.argumentError "Alert defintion must have \"check_definition_id\""), [], ad)
  else
    (Except.error (ZErr.argumentError "Alert definition must have \"last_modified_by\""), [],
      alert_definition)

/-- Python `str(v)` for the scalar values, as used when a payload value is
interpolated into a URL path segment. -/
def JValue.pyStr : JValue → String
  | JValue.str s => s
  | JValue.num n => toString n
  | JValue.jbool b => if b then "True" else "False"
  | JValue.null => "None"
  | JValue.date iso => iso
  | JValue.unser => "object"

/-- `Zmon.update_alert_definition(alert_definition)`: requires
`last_modified_by`, `id` and `check_definition_id`, defaults `status` in
the argument mapping, then PUTs to `alert-definitions/<id>`.  The third
component is the final state of the caller-supplied mapping. -/
def Zmon.update_alert_definition (z : Zmon) (parse : String → Option JValue)
    (backend : Request → Response) (alert_definition : List (String × JValue)) :
    Except ZErr JValue × List Request × List (String × JValue) :=
  if hasKey alert_definition "last_modified_by" then
    if hasKey alert_definition "id" then
      if hasKey alert_definition "check_definition_id" then
        let ad := withDefaultStatus alert_definition
        let idSeg := (lookupKey ad "id").elim "" JValue.pyStr
        let req : Request := ⟨"PUT", z.endpoint [ALERT_DEF, idSeg] true none, [], some ad⟩
        (Zmon.json parse (backend req), [req], ad)
      else
        (Except.error (ZErr.argumentError "Alert defintion must have \"check_definition_id\""), [],
          alert_definition)
    else
      (Except.error (ZErr.argumentError "Alert definition must have \"id\""), [],
        alert_definition)
  else
    (Except.error (ZErr.argumentError "Alert definition must have \"last_modified_by\""), [],
      alert_definition)

/-- `Zmon.add_entity(entity)`: requires `id` and `type`, validates the ID
charset, serializes the entity with `JSONDateEncoder` (raising if that
fails), PUTs it and checks the status; the response object itself is
returned. -/
def Zmon.add_entity (z : Zmon) (backend : Request → Response)
    (entity : List (String × JValue)) : Except ZErr Response × List Request :=
  if hasKey entity "id" && hasKey entity "type" then
    match lookupKey entity "id" with
    | some (JValue.str eid) =>
      if Zmon.is_valid_entity_id eid then
        match roundTripObj entity with
        | some _ =>
          let req : Request := ⟨"PUT", z.endpoint [ENTITIES] false none, [], some entity⟩
          let resp := backend req
          match raise_for_status resp with
          | Except.error e => (Except.error e, [req])
          | Except.ok _ => (Except.ok resp, [req])
        | none => (Except.error (ZErr.pyError "TypeError: not JSON serializable"), [])
      else (Except.error (ZErr.argumentError "Invalid entity ID."), [])
    | _ => (Except.error (ZErr.pyError "TypeError: entity id is not a string"), [])
  else (Except.error (ZErr.argumentError "Entity \"id\" and \"type\" are required."), [])

/-- The Python value passed as the `teams` argument of `Zmon.search`,
with its runtime type: `None`, a list, a tuple, a string or an int. -/
inductive PyTeams where
  | pynone
  | pylist (l : List String)
  | pytuple (l : List String)
  | pystr (s : String)
  | pyint (n : Int)
  deriving DecidableEq

/-- Python truthiness of a `teams` value. -/
def PyTeams.truthy : PyTeams → Bool
  | PyTeams.pynone => false
  | PyTeams.pylist l => !l.isEmpty
  | PyTeams.pytuple l => !l.isEmpty
  | PyTeams.pystr s => s != ""
  | PyTeams.pyint n => n != 0

/-- `type(teams) in (list, tuple)`. -/
def PyTeams.isListOrTuple : PyTeams → Bool
  | PyTeams.pylist _ => true
  | PyTeams.pytuple _ => true
  | _ => false

/-- `','.join(teams)` (only reached for lists and tuples). -/
def PyTeams.joined : PyTeams → String
  | PyTeams.pylist l => pyJoin "," l
  | PyTeams.pytuple l => pyJoin "," l
  | _ => ""

/-- `Zmon.search(q, teams)`: rejects a falsy query, rejects a truthy
`teams` that is neither list nor tuple, and sends `query` plus — for a
truthy `teams` — a single comma-joined `teams` parameter. -/
def Zmon.search (z : Zmon) (parse : String → Option JValue)
    (backend : Request → Response) (q : String) (teams : PyTeams) :
    Except ZErr JValue × List Request :=
  if q = "" then
    (Except.error (ZErr.argumentError "No search query value!"), [])
  else if teams.truthy && !teams.isListOrTuple then
    (Except.error (ZErr.argumentError "\"teams\" should be a list!"), [])
  else
    let params :=
      if teams.truthy then [("query", q), ("teams", teams.joined)]
      else [("query", q)]
    let req : Request := ⟨"GET", z.endpoint [SEARCH] true none, params, none⟩
    (Zmon.json parse (backend req), [req])

/-- `Zmon.add_member(group_name, user_name)`: PUT to
`groups/<group>/member/<user>/`.  The source line `resp.raise_for_status`
is an attribute access without a call, so no status check happens and the
operation never raises on an HTTP error status. -/
def Zmon.add_member (z : Zmon) (backend : Request → Response)
    (group_name user_name : String) : Except ZErr Bool × List Request :=
  let req : Request :=
    ⟨"PUT", z.endpoint [GROUPS, group_name, MEMBER, user_name] true none, [], none⟩
  let resp := backend req
  (Except.ok (resp.text == "1"), [req])

/-- A concrete client used by the concrete instances below. -/
def zx : Zmon := Zmon.init "https://zmon.example/" none none none 10 true

def bkConst (r : Response) : Request → Response := fun _ => r

def parseConst (s : String) (v : JValue) : String → Option JValue :=
  fun t => if t == s then some v else none

def astAccept : String → Except String Unit := fun _ => Except.ok ()

def astRejectAll : String → Except String Unit :=
  fun _ => Except.error "invalid syntax"

def bk1 : Request → Response := bkConst ⟨200, "1"⟩

def p1 : String → Option JValue := parseConst "1" (JValue.num 1)

/-- A well-formed check definition without `status`, for concrete runs. -/
def cd0 : List (String × JValue) :=
  [("owning_team", JValue.str "T"), ("command", JValue.str "x")]

/-- A well-formed alert definition without `status`, for concrete runs. -/
def ad0 : List (String × JValue) :=
  [("last_modified_by", JValue.str "me"), ("check_definition_id", JValue.num 3)]

/-- A well-formed alert-definition update payload that already carries a
`status`, for concrete runs. -/
def adU : List (String × JValue) :=
  [("last_modified_by", JValue.str "me"), ("id", JValue.num 5),
   ("check_definition_id", JValue.num 3), ("status", JValue.str "INACTIVE")]

/-- C1: the spec demands that every resource operation, `add_member`
included, turn a response status of 400 or more into a raised HTTP error.
The source of `add_member` contains `resp.raise_for_status` without the
call parentheses, a no-op attribute access, so on a 500 response
`add_member` raises nothing and just returns whether the body equals
`"1"`.  Every sibling operation calls `resp.raise_for_status()`, so the
code, not the spec, is at fault. -/
theorem C1_add_member_ignores_error_status :
    Zmon.add_member zx (bkConst ⟨500, "oops"⟩) "g" "u"
      = (Except.ok false,
         [⟨"PUT", "https://zmon.example/api/v1/groups/g/member/u/", [], none⟩])
    ∧ Zmon.add_member zx (bkConst ⟨500, "1"⟩) "g" "u"
      = (Except.ok true,
         [⟨"PUT", "https://zmon.example/api/v1/groups/g/member/u/", [], none⟩]) :=
  ⟨rfl, rfl⟩

/-- C10: `is_valid_entity_id` only searches for a disallowed character, so
it accepts the empty string, and `add_entity` with an entity whose `id` is
`""` and whose `type` is present passes both validator checks and issues
its PUT request. -/
theorem C10_empty_entity_id_accepted :
    Zmon.is_valid_entity_id "" = true
    ∧ Zmon.add_entity zx bk1 [("id", JValue.str ""), ("type", JValue.str "instance")]
      = (Except.ok ⟨200, "1"⟩,
         [⟨"PUT", "https://zmon.example/api/v1/entities", [],
           some [("id", JValue.str ""), ("type", JValue.str "instance")]⟩]) :=
  ⟨rfl, rfl⟩

/-- C3 counterexample: the claim quantifies over all token values,
including falsy non-None ones.  For the empty-string token the session
carries no Authorization header at all — and, because the token is not
None, basic auth is suppressed as well, so the claim's "the session
carries an 'Authorization: Bearer <token>' header" is false at this
input. -/
theorem C3_counterexample_falsy_token :
    (Zmon.init "https://zmon.example" (some "") (some "user") (some "pass") 10 true).bearerHeader
      = none
    ∧ (Zmon.init "https://zmon.example" (some "") (some "user") (some "pass") 10 true).basicAuth
      = none :=
  ⟨rfl, rfl⟩

/-- C3 (amended): a truthy token yields the Bearer header and suppresses
basic auth; a None token with truthy username and password yields basic
auth and no Bearer header; an empty-string token yields neither, even when
username and password are supplied; a None token with a missing or empty
credential yields neither. -/
theorem C3_session_auth (url : String) (t u p : Option String) (tmo : Nat) (v : Bool) :
    (∀ s, t = some s → s ≠ "" →
      (Zmon.init url t u p tmo v).bearerHeader = some ("Bearer " ++ s)
      ∧ (Zmon.init url t u p tmo v).basicAuth = none)
    ∧ (∀ us ps, t = none → u = some us → p = some ps → us ≠ "" → ps ≠ "" →
      (Zmon.init url t u p tmo v).basicAuth = some (us, ps)
      ∧ (Zmon.init url t u p tmo v).bearerHeader = none)
    ∧ (t = some "" →
      (Zmon.init url t u p tmo v).basicAuth = none
      ∧ (Zmon.init url t u p tmo v).bearerHeader = none)
    ∧ (t = none → (u = none ∨ p = none ∨ u = some "" ∨ p = some "") →
      (Zmon.init url t u p tmo v).basicAuth = none
      ∧ (Zmon.init url t u p tmo v).bearerHeader = none) := by
  have hb : (Zmon.init url t u p tmo v).bearerHeader = mkBearer t := rfl
  have ha : (Zmon.init url t u p tmo v).basicAuth = mkAuth t u p := rfl
  refine ⟨?_, ?_, ?_, ?_⟩
  · rintro s rfl hs
    rw [hb, ha]
    constructor
    · simp [mkBearer, hs]
    · cases u <;> cases p <;> simp [mkAuth]
  · rintro us ps rfl rfl rfl hus hps
    rw [hb, ha]
    exact ⟨by simp [mkAuth, hus, hps], rfl⟩
  · rintro rfl
    rw [hb, ha]
    constructor
    · cases u <;> cases p <;> simp [mkAuth]
    · simp [mkBearer]
  · rintro rfl h
    rw [hb, ha]
    refine ⟨?_, rfl⟩
    rcases h with rfl | rfl | rfl | rfl
    · simp [mkAuth]
    · cases u <;> simp [mkAuth]
    · cases p <;> simp [mkAuth]
    · cases u <;> simp [mkAuth]

/-- C3 witness: the amended statement applied at concrete credentials. -/
theorem C3_session_auth_witness :
    ((Zmon.init "https://zmon.example" (some "tok") (some "u") (some "p") 10 true).bearerHeader
        = some "Bearer tok"
      ∧ (Zmon.init "https://zmon.example" (some "tok") (some "u") (some "p") 10 true).basicAuth
        = none)
    ∧ ((Zmon.init "https://zmon.example" none (some "u") (some "p") 10 true).basicAuth
        = some ("u", "p")
      ∧ (Zmon.init "https://zmon.example" none (some "u") (some "p") 10 true).bearerHeader
        = none) :=
  ⟨(C3_session_auth "https://zmon.example" (some "tok") (some "u") (some "p") 10 true).1
      "tok" rfl (by decide),
   (C3_session_auth "https://zmon.example" none (some "u") (some "p") 10 true).2.1
      "u" "p" rfl rfl rfl (by decide) (by decide)⟩

/-- C4 counterexample: the claim asserts `compare_entities(e, e)` is true
for every mapping `e`, and simultaneously that a serialization failure
yields false.  For a mapping holding a non-JSON-serializable value the
serialization fails, so the comparison of the mapping with itself is
false and reflexivity fails. -/
theorem C4_counterexample_not_reflexive :
    compare_entities [("x", JValue.unser)] [("x", JValue.unser)] = false :=
  rfl

/-- C4 (amended): `compare_entities` is a total boolean function; it is
reflexive on every mapping that is JSON-serializable after popping
`last_modified`; two mappings that agree after popping `last_modified`
(and serialize) compare equal; and whenever serialization of either
popped copy fails it returns false instead of raising. -/
theorem C4_compare_entities (e e1 e2 : List (String × JValue)) :
    ((roundTripObj (popLastModified e)).isSome = true →
      compare_entities e e = true)
    ∧ (popLastModified e1 = popLastModified e2 →
      (roundTripObj (popLastModified e1)).isSome = true →
      compare_entities e1 e2 = true)
    ∧ ((roundTripObj (popLastModified e1)).isSome = false ∨
        (roundTripObj (popLastModified e2)).isSome = false →
      compare_entities e1 e2 = false) := by
  refine ⟨?_, ?_, ?_⟩
  · intro h
    unfold compare_entities
    cases ho : roundTripObj (popLastModified e) with
    | none => rw [ho] at h; simp at h
    | some o => simp
  · intro heq h
    unfold compare_entities
    rw [← heq]
    cases ho : roundTripObj (popLastModified e1) with
    | none => rw [ho] at h; simp at h
    | some o => simp
  · intro h
    unfold compare_entities
    rcases h with h | h
    · cases ho : roundTripObj (popLastModified e1) with
      | none => cases roundTripObj (popLastModified e2) <;> rfl
      | some o => rw [ho] at h; simp at h
    · cases ho : roundTripObj (popLastModified e2) with
      | none => cases roundTripObj (popLastModified e1) <;> rfl
      | some o => rw [ho] at h; simp at h

/-- C4 witness: two entities identical except for `last_modified` compare
equal, and a serializable entity compares equal to itself. -/
theorem C4_compare_entities_witness :
    compare_entities
        [("a", JValue.num 1), ("last_modified", JValue.str "t1")]
        [("a", JValue.num 1), ("last_modified", JValue.str "t2")] = true
    ∧ compare_entities [("a", JValue.num 1)] [("a", JValue.num 1)] = true :=
  ⟨(C4_compare_entities []
      [("a", JValue.num 1), ("last_modified", JValue.str "t1")]
      [("a", JValue.num 1), ("last_modified", JValue.str "t2")]).2.1 rfl rfl,
   (C4_compare_entities [("a", JValue.num 1)] [] []).1 rfl⟩

theorem invalidKey_eq_none (c : Char) (h : invalidKey c = none) :
    invalidChar c = false := by
  unfold invalidKey at h
  by_cases hc : invalidChar c = true
  · rw [if_pos hc] at h; exact absurd h (by simp)
  · simpa using hc

theorem invalidKey_eq_some (c r : Char) (h : invalidKey c = some r) :
    r = '-' := by
  unfold invalidKey at h
  by_cases hc : invalidChar c = true
  · rw [if_pos hc] at h; exact (Option.some.inj h).symm
  · rw [if_neg hc] at h; exact absurd h (by simp)

/-- Every character surviving the `invalid_entity_id_re.sub('-', ...)`
pass is in the allowed set: it is either a character the pattern did not
match or the replacement `-`. -/
theorem runSubAux_invalid_valid :
    ∀ (prev : Option Char) (l : List Char) (c : Char),
      c ∈ runSubAux invalidKey prev l → invalidChar c = false := by
  intro prev l
  induction l generalizing prev with
  | nil => intro c hc; simp [runSubAux] at hc
  | cons a t ih =>
    intro c hc
    unfold runSubAux at hc
    cases ha : invalidKey a with
    | none =>
      rw [ha] at hc
      simp only [List.mem_cons] at hc
      rcases hc with rfl | hc
      · exact invalidKey_eq_none c ha
      · exact ih none c hc
    | some r =>
      rw [ha] at hc
      have hr : r = '-' := invalidKey_eq_some a r ha
      subst hr
      dsimp only at hc
      by_cases hp : prev = some '-'
      · rw [if_pos hp] at hc
        exact ih _ c hc
      · rw [if_neg hp] at hc
        simp only [List.mem_cons] at hc
        rcases hc with rfl | hc
        · decide
        · exact ih _ c hc

theorem strAppend_empty (a : String) : a ++ "" = a := by
  apply String.ext
  simp [String.data_append]

theorem strAppend_assoc (a b c : String) : a ++ b ++ c = a ++ (b ++ c) := by
  apply String.ext
  simp [String.data_append]

/-- Appending one empty segment to a nonempty `'sep'.join` argument list
appends one separator to the joined string. -/
theorem pyJoin_append_empty (sep : String) (xs : List String) (h : xs ≠ []) :
    pyJoin sep (xs ++ [""]) = pyJoin sep xs ++ sep := by
  induction xs with
  | nil => exact absurd rfl h
  | cons a t ih =>
    cases t with
    | nil =>
      show a ++ sep ++ "" = a ++ sep
      exact strAppend_empty (a ++ sep)
    | cons b t2 =>
      show a ++ sep ++ pyJoin sep ((b :: t2) ++ [""])
        = a ++ sep ++ pyJoin sep (b :: t2) ++ sep
      rw [ih (by simp)]
      exact (strAppend_assoc (a ++ sep) (pyJoin sep (b :: t2)) sep).symm

/-- `_join_path` with one extra empty segment appends exactly one `/`. -/
theorem join_path_trailing (parts : List String) (h : parts ≠ []) :
    join_path (parts ++ [""]) = join_path parts ++ "/" := by
  unfold join_path
  rw [List.map_append]
  have hm : List.map pyStripSlash [""] = [""] := rfl
  rw [hm]
  exact pyJoin_append_empty "/" (parts.map pyStripSlash) (by simpa using h)

theorem lookupKey_append_status (m : List (String × JValue)) (v : JValue) :
    lookupKey (m ++ [("status", v)]) "command" = lookupKey m "command" := by
  induction m with
  | nil => rfl
  | cons p t ih =>
    obtain ⟨k, w⟩ := p
    simp only [List.cons_append, lookupKey]
    split
    · rfl
    · exact ih

/-- Defaulting `status` does not change the `command` entry. -/
theorem lookupKey_withDefaultStatus_command (m : List (String × JValue)) :
    lookupKey (withDefaultStatus m) "command" = lookupKey m "command" := by
  unfold withDefaultStatus
  split
  · rfl
  · exact lookupKey_append_status m (JValue.str "ACTIVE")

/-- Every run of `update_check_definition` ends in one of three shapes:
an error with no request and the mapping untouched, an error with no
request and the `status`-defaulted mapping, or the POST of the
`status`-defaulted mapping. -/
theorem update_check_result_cases (z : Zmon) (parse : String → Option JValue)
    (astParse : String → Except String Unit) (backend : Request → Response)
    (cd : List (String × JValue)) :
    (∃ e, z.update_check_definition parse astParse backend cd
        = (Except.error e, [], cd))
    ∨ (∃ e, z.update_check_definition parse astParse backend cd
        = (Except.error e, [], withDefaultStatus cd))
    ∨ z.update_check_definition parse astParse backend cd
        = (Zmon.json parse (backend
            ⟨"POST", z.endpoint [CHECK_DEF] true none, [], some (withDefaultStatus cd)⟩),
           [⟨"POST", z.endpoint [CHECK_DEF] true none, [], some (withDefaultStatus cd)⟩],
           withDefaultStatus cd) := by
  simp only [Zmon.update_check_definition]
  split
  · split
    · split
      · exact Or.inr (Or.inl ⟨_, rfl⟩)
      · exact Or.inr (Or.inr rfl)
    · exact Or.inr (Or.inl ⟨_, rfl⟩)
    · exact Or.inr (Or.inl ⟨_, rfl⟩)
  · exact Or.inl ⟨_, rfl⟩

/-- Every run of `create_alert_definition` ends in one of three shapes. -/
theorem create_alert_result_cases (z : Zmon) (parse : String → Option JValue)
    (backend : Request → Response) (ad : List (String × JValue)) :
    (∃ e, z.create_alert_definition parse backend ad = (Except.error e, [], ad))
    ∨ (∃ e, z.create_alert_definition parse backend ad
        = (Except.error e, [], withDefaultStatus ad))
    ∨ z.create_alert_definition parse backend ad
        = (Zmon.json parse (backend
            ⟨"POST", z.endpoint [ALERT_DEF] true none, [], some (withDefaultStatus ad)⟩),
           [⟨"POST", z.endpoint [ALERT_DEF] true none, [], some (withDefaultStatus ad)⟩],
           withDefaultStatus ad) := by
  simp only [Zmon.create_alert_definition]
  split
  · split
    · exact Or.inr (Or.inr rfl)
    · exact Or.inr (Or.inl ⟨_, rfl⟩)
  · exact Or.inl ⟨_, rfl⟩

/-- Every run of `update_alert_definition` ends in one of three shapes. -/
theorem update_alert_result_cases (z : Zmon) (parse : String → Option JValue)
    (backend : Request → Response) (ad : List (String × JValue)) :
    (∃ e, z.update_alert_definition parse backend ad = (Except.error e, [], ad))
    ∨ z.update_alert_definition parse backend ad
        = (Zmon.json parse (backend
            ⟨"PUT",
             z.endpoint [ALERT_DEF,
               ((lookupKey (withDefaultStatus ad) "id").elim "" JValue.pyStr)] true none,
             [], some (withDefaultStatus ad)⟩),
           [⟨"PUT",
             z.endpoint [ALERT_DEF,
               ((lookupKey (withDefaultStatus ad) "id").elim "" JValue.pyStr)] true none,
             [], some (withDefaultStatus ad)⟩],
           withDefaultStatus ad) := by
  simp only [Zmon.update_alert_definition]
  split
  · split
    · split
      · exact Or.inr rfl
      · exact Or.inl ⟨_, rfl⟩
    · exact Or.inl ⟨_, rfl⟩
  · exact Or.inl ⟨_, rfl⟩

/-- C6: `get_valid_entity_id` lowercases its input, rewrites runs of `(`
to `[` and runs of `)` to `]`, and collapses every other run of
disallowed characters to a single `-`; in particular `"Host (A)"` maps to
`"host-[a]"`, and the result always satisfies `is_valid_entity_id`. -/
theorem C6_get_valid_entity_id :
    get_valid_entity_id "Host (A)" = "host-[a]"
    ∧ get_valid_entity_id "HOST" = "host"
    ∧ get_valid_entity_id "((x))" = "[x]"
    ∧ get_valid_entity_id "a  %%b" = "a-b"
    ∧ ∀ s : String, Zmon.is_valid_entity_id (get_valid_entity_id s) = true := by
  refine ⟨rfl, rfl, rfl, rfl, ?_⟩
  intro s
  show (runSub invalidKey (runSub parenKey (pyLower s).data)).all
    (fun c => !invalidChar c) = true
  rw [List.all_eq_true]
  intro c hc
  have := runSubAux_invalid_valid none _ c hc
  simp [this]

/-- C2: when the backend answers a `get_check_definition` GET with status
200 and an empty body, the operation raises the not-found HTTP error with
status 404 and empty body — exactly the error a 404 answer would produce —
and when it answers 200 with a body the decoder accepts, the operation
returns the decoded value unchanged. -/
theorem C2_get_check_definition_not_found (z : Zmon)
    (parse : String → Option JValue) (backend : Request → Response)
    (defid : String) (hstatus : (backend (gcdReq z defid)).status = 200) :
    ((backend (gcdReq z defid)).text = "" →
      (z.get_check_definition parse backend defid).1
        = Except.error (ZErr.httpError 404 ""))
    ∧ (∀ v, (backend (gcdReq z defid)).text ≠ "" →
        parse ((backend (gcdReq z defid)).text) = some v →
        (z.get_check_definition parse backend defid).1 = Except.ok v) := by
  constructor
  · intro hempty
    simp only [Zmon.get_check_definition]
    rw [if_pos hempty]
    simp [Zmon.json, raise_for_status, hempty]
  · intro v hne hparse
    simp only [Zmon.get_check_definition]
    rw [if_neg hne]
    simp [Zmon.json, raise_for_status, hstatus, hparse]

/-- C2 witness: the statement applied at a 200-with-empty-body backend
and at a 200-with-JSON-body backend. -/
theorem C2_get_check_definition_witness :
    (Zmon.get_check_definition zx (parseConst "j" JValue.null) (bkConst ⟨200, ""⟩) "7").1
      = Except.error (ZErr.httpError 404 "")
    ∧ (Zmon.get_check_definition zx (parseConst "j" JValue.null) (bkConst ⟨200, "j"⟩) "7").1
      = Except.ok JValue.null :=
  ⟨(C2_get_check_definition_not_found zx (parseConst "j" JValue.null)
      (bkConst ⟨200, ""⟩) "7" rfl).1 rfl,
   (C2_get_check_definition_not_found zx (parseConst "j" JValue.null)
      (bkConst ⟨200, "j"⟩) "7" rfl).2 JValue.null (by decide) rfl⟩

/-- C5: `update_check_definition` on a mapping without `owning_team`
raises the argument error with no request issued, and on a mapping with
`owning_team` whose `command` fails to parse raises the `ZmonError`
naming the parse failure, again with no request issued. -/
theorem C5_update_check_definition_validation (z : Zmon)
    (parse : String → Option JValue) (astParse : String → Except String Unit)
    (backend : Request → Response) (cd : List (String × JValue)) :
    (hasKey cd "owning_team" = false →
      z.update_check_definition parse astParse backend cd
        = (Except.error (ZErr.argumentError "Check definition must have \"owning_team\""),
           [], cd))
    ∧ (∀ s msg, hasKey cd "owning_team" = true →
        lookupKey cd "command" = some (JValue.str s) →
        astParse s = Except.error msg →
        z.update_check_definition parse astParse backend cd
          = (Except.error (ZErr.clientError ("Invalid check command: " ++ msg)),
             [], withDefaultStatus cd)) := by
  constructor
  · intro h
    simp [Zmon.update_check_definition, h]
  · intro s msg h1 h2 h3
    have h2x : lookupKey (withDefaultStatus cd) "command" = some (JValue.str s) := by
      rw [lookupKey_withDefaultStatus_command, h2]
    simp [Zmon.update_check_definition, h1, h2x, Zmon.validate_check_command, h3]

/-- C5 witness: the statement applied to a mapping missing `owning_team`
and to one whose command is rejected by the parser. -/
theorem C5_update_check_definition_witness :
    Zmon.update_check_definition zx p1 astRejectAll bk1 [("command", JValue.str "x(")]
      = (Except.error (ZErr.argumentError "Check definition must have \"owning_team\""),
         [], [("command", JValue.str "x(")])
    ∧ Zmon.update_check_definition zx p1 astRejectAll bk1
        [("owning_team", JValue.str "T"), ("command", JValue.str "x(")]
      = (Except.error (ZErr.clientError "Invalid check command: invalid syntax"),
         [], withDefaultStatus [("owning_team", JValue.str "T"), ("command", JValue.str "x(")]) :=
  ⟨(C5_update_check_definition_validation zx p1 astRejectAll bk1
      [("command", JValue.str "x(")]).1 rfl,
   (C5_update_check_definition_validation zx p1 astRejectAll bk1
      [("owning_team", JValue.str "T"), ("command", JValue.str "x(")]).2
      "x(" "invalid syntax" rfl rfl rfl⟩

/-- C7 counterexample: the claim demands an argument error for every
non-sequence `teams` argument, but the source only type-checks a truthy
`teams`; for the falsy non-sequence value `0` no error is raised and the
request is issued with just the query parameter. -/
theorem C7_counterexample_falsy_nonsequence_teams :
    isArgumentErrorResult (Zmon.search zx p1 bk1 "x" (PyTeams.pyint 0)).1 = false
    ∧ (Zmon.search zx p1 bk1 "x" (PyTeams.pyint 0)).2
      = [⟨"GET", "https://zmon.example/api/v1/quick-search/", [("query", "x")], none⟩] :=
  ⟨rfl, rfl⟩

/-- C7 (amended): an empty query raises the argument error with no
request; a truthy `teams` that is neither list nor tuple raises the
argument error with no request (a falsy `teams` of any type is treated as
absent); and a valid call with `teams=["A","B"]` sends the single
comma-joined parameter `teams=A,B`. -/
theorem C7_search_validation (z : Zmon) (parse : String → Option JValue)
    (backend : Request → Response) (q : String) (teams : PyTeams) :
    (Zmon.search z parse backend "" teams
      = (Except.error (ZErr.argumentError "No search query value!"), []))
    ∧ (q ≠ "" → teams.truthy = true → teams.isListOrTuple = false →
      Zmon.search z parse backend q teams
        = (Except.error (ZErr.argumentError "\"teams\" should be a list!"), []))
    ∧ (Zmon.search z parse backend "x" (PyTeams.pylist ["A", "B"])).2
      = [⟨"GET", z.endpoint [SEARCH] true none,
          [("query", "x"), ("teams", "A,B")], none⟩] := by
  refine ⟨?_, ?_, ?_⟩
  · simp [Zmon.search]
  · intro hq ht hnl
    simp [Zmon.search, hq, ht, hnl]
  · rfl

/-- C7 witness: the amended statement applied at a truthy string `teams`
argument, which is neither list nor tuple. -/
theorem C7_search_validation_witness :
    Zmon.search zx p1 bk1 "x" (PyTeams.pystr "AB")
      = (Except.error (ZErr.argumentError "\"teams\" should be a list!"), []) :=
  (C7_search_validation zx p1 bk1 "x" (PyTeams.pystr "AB")).2.1
    (by decide) rfl rfl

/-- C8: on the base `https://zmon.example/` the client's API base is
`https://zmon.example/api/v1/`; `endpoint` joins stripped segments with
`/` under that base, yields `.../api/v1/entities/abc` without a trailing
slash and `.../api/v1/entities/abc/` with one, resolves against an
override base when given, and appending the trailing empty segment
appends exactly one `/` to the joined path. -/
theorem C8_endpoint (parts : List String) :
    zx.url = "https://zmon.example/api/v1/"
    ∧ zx.endpoint ["entities", "abc"] false none
      = "https://zmon.example/api/v1/entities/abc"
    ∧ zx.endpoint ["entities", "abc"] true none
      = "https://zmon.example/api/v1/entities/abc/"
    ∧ zx.endpoint ["/entities/", "/abc/"] false none
      = "https://zmon.example/api/v1/entities/abc"
    ∧ zx.endpoint ["tv/", "tok"] true (some "https://zmon.example")
      = "https://zmon.example/tv/tok/"
    ∧ (parts ≠ [] → join_path (parts ++ [""]) = join_path parts ++ "/") :=
  ⟨rfl, rfl, rfl, rfl, rfl, fun h => join_path_trailing parts h⟩

/-- C8 witness: the trailing-slash clause applied at a one-segment
path. -/
theorem C8_endpoint_witness : join_path ["a", ""] = join_path ["a"] ++ "/" :=
  (C8_endpoint ["a"]).2.2.2.2.2 (by decide)

/-- C9: whenever `update_check_definition`, `create_alert_definition` or
`update_alert_definition` reaches its HTTP request, the caller-supplied
mapping has been mutated exactly by inserting `status = 'ACTIVE'` when
that key was absent (and not otherwise), the request body is that mutated
mapping, and a mapping that already has `status` is returned entirely
unchanged on every path. -/
theorem C9_status_defaulting (z : Zmon) (parse : String → Option JValue)
    (astParse : String → Except String Unit) (backend : Request → Response)
    (cd ad1 ad2 : List (String × JValue)) :
    (hasKey cd "status" = false →
      withDefaultStatus cd = cd ++ [("status", JValue.str "ACTIVE")])
    ∧ (hasKey cd "status" = true → withDefaultStatus cd = cd)
    ∧ ((z.update_check_definition parse astParse backend cd).2.1 ≠ [] →
      (z.update_check_definition parse astParse backend cd).2.2 = withDefaultStatus cd
      ∧ (z.update_check_definition parse astParse backend cd).2.1.map Request.body
          = [some (withDefaultStatus cd)])
    ∧ (hasKey cd "status" = true →
      (z.update_check_definition parse astParse backend cd).2.2 = cd)
    ∧ ((z.create_alert_definition parse backend ad1).2.1 ≠ [] →
      (z.create_alert_definition parse backend ad1).2.2 = withDefaultStatus ad1
      ∧ (z.create_alert_definition parse backend ad1).2.1.map Request.body
          = [some (withDefaultStatus ad1)])
    ∧ (hasKey ad1 "status" = true →
      (z.create_alert_definition parse backend ad1).2.2 = ad1)
    ∧ ((z.update_alert_definition parse backend ad2).2.1 ≠ [] →
      (z.update_alert_definition parse backend ad2).2.2 = withDefaultStatus ad2
      ∧ (z.update_alert_definition parse backend ad2).2.1.map Request.body
          = [some (withDefaultStatus ad2)])
    ∧ (hasKey ad2 "status" = true →
      (z.update_alert_definition parse backend ad2).2.2 = ad2) := by
  refine ⟨?_, ?_, ?_, ?_, ?_, ?_, ?_, ?_⟩
  · intro h; simp [withDefaultStatus, h]
  · intro h; simp [withDefaultStatus, h]
  · intro hreq
    rcases update_check_result_cases z parse astParse backend cd with
      ⟨e, he⟩ | ⟨e, he⟩ | he
    · rw [he] at hreq; simp at hreq
    · rw [he] at hreq; simp at hreq
    · rw [he]; exact ⟨rfl, rfl⟩
  · intro hs
    have hw : withDefaultStatus cd = cd := by simp [withDefaultStatus, hs]
    rcases update_check_result_cases z parse astParse backend cd with
      ⟨e, he⟩ | ⟨e, he⟩ | he
    · rw [he]
    · rw [he]; exact hw
    · rw [he]; exact hw
  · intro hreq
    rcases create_alert_result_cases z parse backend ad1 with
      ⟨e, he⟩ | ⟨e, he⟩ | he
    · rw [he] at hreq; simp at hreq
    · rw [he] at hreq; simp at hreq
    · rw [he]; exact ⟨rfl, rfl⟩
  · intro hs
    have hw : withDefaultStatus ad1 = ad1 := by simp [withDefaultStatus, hs]
    rcases create_alert_result_cases z parse backend ad1 with
      ⟨e, he⟩ | ⟨e, he⟩ | he
    · rw [he]
    · rw [he]; exact hw
    · rw [he]; exact hw
  · intro hreq
    rcases update_alert_result_cases z parse backend ad2 with ⟨e, he⟩ | he
    · rw [he] at hreq; simp at hreq
    · rw [he]; exact ⟨rfl, rfl⟩
  · intro hs
    have hw : withDefaultStatus ad2 = ad2 := by simp [withDefaultStatus, hs]
    rcases update_alert_result_cases z parse backend ad2 with ⟨e, he⟩ | he
    · rw [he]
    · rw [he]; exact hw

/-- C9 witness: the statement applied at concrete payloads — a check
definition and an alert definition without `status` whose runs reach the
request, and an alert-definition update that already has `status`. -/
theorem C9_status_defaulting_witness :
    ((zx.update_check_definition p1 astAccept bk1 cd0).2.2 = withDefaultStatus cd0
      ∧ (zx.update_check_definition p1 astAccept bk1 cd0).2.1.map Request.body
          = [some (withDefaultStatus cd0)])
    ∧ ((zx.create_alert_definition p1 bk1 ad0).2.2 = withDefaultStatus ad0
      ∧ (zx.create_alert_definition p1 bk1 ad0).2.1.map Request.body
          = [some (withDefaultStatus ad0)])
    ∧ (zx.update_alert_definition p1 bk1 adU).2.2 = adU :=
  ⟨(C9_status_defaulting zx p1 astAccept bk1 cd0 ad0 adU).2.2.1 (by decide),
   (C9_status_defaulting zx p1 astAccept bk1 cd0 ad0 adU).2.2.2.2.1 (by decide),
   (C9_status_defaulting zx p1 astAccept bk1 cd0 ad0 adU).2.2.2.2.2.2.2 (by decide)⟩

